import Mathlib

/-!
Verification of the rusteze messaging core against its design document.

The definitions below are a shallow embedding of the Rust sources:

* `crates/auth/src/token.rs`      — JWT issuance/validation (`create_token`,
  `validate_token`), including the behaviour of the `jsonwebtoken` crate's
  `Validation::default()` (HS256, `validate_exp = true`, `leeway = 60`).
* `crates/auth/src/password.rs`   — Argon2id password hashing/verification,
  with the Argon2 digest function abstracted as a parameter.
* `crates/auth/src/lib.rs`        — the `AuthError` taxonomy.
* `crates/models/src/event.rs`    — the `ClientEvent`/`ServerEvent` wire
  enums and their serde tagged-union (de)serialisation.
* `crates/gateway/src/main.rs`    — the per-connection handshake loop, the
  post-authentication Ready/subscribe sequence, the authenticated event
  loop, and the `tokio::sync::broadcast` relay channel of capacity 256.
* `crates/server/src/extract.rs`  — the REST `AuthUser` extractor.

Uuids are modelled as `Nat`, timestamps as `Int` (unix seconds), wire
strings as `String` or `List Char`.  Tokens travel structurally instead of
base64-encoded: a `Token` records the claims and the secret that signed it
(a perfect-MAC model of HS256), or that the string was not a well-formed
JWT at all.
-/

namespace Rusteze

/-- Decidable equality for `Except`, so model outputs can be compared by
`decide` on concrete inputs. -/
instance {ε α : Type} [DecidableEq ε] [DecidableEq α] :
    DecidableEq (Except ε α) := fun a b =>
  match a, b with
  | Except.ok x, Except.ok y =>
    if h : x = y then isTrue (by rw [h]) else isFalse (by simp [h])
  | Except.error x, Except.error y =>
    if h : x = y then isTrue (by rw [h]) else isFalse (by simp [h])
  | Except.ok _, Except.error _ => isFalse (by simp)
  | Except.error _, Except.ok _ => isFalse (by simp)

/-- Error taxonomy of `crates/auth/src/lib.rs` (`AuthError`).  The `Db`
variant wraps the collaborator error's message. -/
inductive AuthError where
  | InvalidCredentials
  | AccountNotFound
  | TokenExpired
  | InvalidToken
  | MfaRequired
  | InvalidMfaCode
  | Db (msg : String)
deriving DecidableEq, Repr

/-- Token claims from `crates/auth/src/token.rs`: `{sub, sid, exp, iat}`,
uuids as `Nat`, unix-second timestamps as `Int`. -/
structure Claims where
  sub : Nat
  sid : Nat
  exp : Int
  iat : Int
deriving DecidableEq, Repr

/-- A JWT, modelled structurally: `signed claims secret` is the string
produced by `jsonwebtoken::encode` of `claims` under `secret` (a perfect
MAC: verification succeeds exactly when the same secret is supplied);
`malformed raw` is any string that is not a well-formed JWT. -/
inductive Token where
  | signed (claims : Claims) (secret : String)
  | malformed (raw : String)
deriving DecidableEq, Repr

/-- Seconds in `chrono::Duration::days(30)`, the fixed token lifetime. -/
def tokenLifetime : Int := 30 * 86400

/-- Clock-skew leeway (in seconds) applied by the `jsonwebtoken` crate's
`Validation::default()`, which `validate_token` passes to `decode`. -/
def jwtLeeway : Int := 60

/-- `create_token` (`crates/auth/src/token.rs`): claims with `iat = now`,
`exp = now + Duration::days(30)`, signed with `secret`.  The source wraps
the result in `AuthResult` but `encode` cannot fail for HS256 with owned
claims, so the model returns the token directly. -/
def create_token (user_id session_id : Nat) (secret : String) (now : Int) : Token :=
  Token.signed
    { sub := user_id
      sid := session_id
      exp := now + tokenLifetime
      iat := now }
    secret

/-- `validate_token` (`crates/auth/src/token.rs`): `jsonwebtoken::decode`
with `Validation::default()` — signature is verified first (failure, like a
malformed token, maps to `InvalidToken`), then `exp` is validated with the
default 60-second leeway (`ExpiredSignature` maps to `TokenExpired`). -/
def validate_token (token : Token) (secret : String) (now : Int) :
    Except AuthError Claims :=
  match token with
  | Token.malformed _ => Except.error AuthError.InvalidToken
  | Token.signed claims sec =>
    if sec = secret then
      if claims.exp < now - jwtLeeway then Except.error AuthError.TokenExpired
      else Except.ok claims
    else Except.error AuthError.InvalidToken

/-! ## Wire models (`crates/models/src`)

Structures mirror the Rust structs field for field; `DateTime<Utc>` is an
`Int` unix timestamp, `Uuid` a `Nat`. -/

/-- `UserStatus` (`crates/models/src/user.rs`). -/
inductive UserStatus where
  | Offline
  | Online
  | Idle
  | DoNotDisturb
  | Invisible
deriving DecidableEq, Repr

/-- `PartialUser` (`crates/models/src/user.rs`). -/
structure PartialUser where
  id : Nat
  username : String
  discriminator : String
  display_name : Option String
  avatar_url : Option String
  status : UserStatus
deriving DecidableEq, Repr

/-- `Server` (`crates/models/src/server.rs`). -/
structure Server where
  id : Nat
  name : String
  owner_id : Nat
  icon_url : Option String
  banner_url : Option String
  description : Option String
  created_at : Int
deriving DecidableEq, Repr

/-- `Member` (`crates/models/src/server.rs`). -/
structure Member where
  server_id : Nat
  user_id : Nat
  nickname : Option String
  roles : List Nat
  joined_at : Int
deriving DecidableEq, Repr

/-- `ChannelType` (`crates/models/src/channel.rs`). -/
inductive ChannelType where
  | Text
  | Voice
  | DirectMessage
  | GroupDm
deriving DecidableEq, Repr

/-- `Channel` (`crates/models/src/channel.rs`). -/
structure Channel where
  id : Nat
  server_id : Option Nat
  name : String
  channel_type : ChannelType
  topic : Option String
  position : Int
  created_at : Int
deriving DecidableEq, Repr

/-- `Attachment` (`crates/models/src/message.rs`). -/
structure Attachment where
  id : Nat
  filename : String
  content_type : String
  size : Nat
  url : String
deriving DecidableEq, Repr

/-- `Embed` (`crates/models/src/message.rs`). -/
structure Embed where
  title : Option String
  description : Option String
  url : Option String
  color : Option Nat
  image_url : Option String
deriving DecidableEq, Repr

/-- `Message` (`crates/models/src/message.rs`). -/
structure Message where
  id : Nat
  channel_id : Nat
  author_id : Nat
  content : Option String
  attachments : List Attachment
  embeds : List Embed
  mentions : List Nat
  replies_to : Option Nat
  pinned : Bool
  edited_at : Option Int
  created_at : Int
deriving DecidableEq, Repr

/-- `ServerEvent` (`crates/models/src/event.rs`): events sent from server
to client over the socket, serde-tagged by a `type` field. -/
inductive ServerEvent where
  | Ready (user : PartialUser) (servers : List Server)
      (channels : List Channel) (members : List Member)
  | Pong (ts : Nat)
  | MessageCreate (msg : Message)
  | MessageUpdate (id : Nat) (channel_id : Nat) (content : Option String)
  | MessageDelete (id : Nat) (channel_id : Nat)
  | ChannelCreate (ch : Channel)
  | ChannelUpdate (id : Nat) (name : Option String) (topic : Option String)
  | ChannelDelete (id : Nat)
  | PresenceUpdate (user_id : Nat) (status : UserStatus)
  | VoiceJoin (channel_id : Nat) (user_id : Nat)
  | VoiceLeave (channel_id : Nat) (user_id : Nat)
  | TypingStart (channel_id : Nat) (user_id : Nat)
deriving DecidableEq, Repr

/-- `ClientEvent` (`crates/models/src/event.rs`, lines 67–73): events sent
from client to server.  The enum declares exactly three variants —
`Authenticate`, `Ping`, `TypingStart`.  NOTE: it has no `Subscribe`
variant, although `crates/gateway/src/main.rs` line 216 matches on
`ClientEvent::Subscribe` (see `c2_subscribe_frame_ignored`). -/
inductive ClientEvent where
  | Authenticate (token : Token)
  | Ping (ts : Nat)
  | TypingStart (channel_id : Nat)
deriving DecidableEq, Repr

/-- An inbound JSON text frame, reduced to the fields the `ClientEvent`
variants can carry: the serde `type` discriminator and the optional
payload fields.  `none` means the field is absent from the JSON object. -/
structure Frame where
  type : String
  token : Option Token
  ts : Option Nat
  channel_id : Option Nat
deriving DecidableEq, Repr

/-- serde deserialisation of a tagged `ClientEvent`
(`#[serde(tag = "type")]`): an unknown discriminator or a missing payload
field is a deserialisation error (`none`). -/
def parseClientEvent (f : Frame) : Option ClientEvent :=
  if f.type = "Authenticate" then f.token.map ClientEvent.Authenticate
  else if f.type = "Ping" then f.ts.map ClientEvent.Ping
  else if f.type = "TypingStart" then f.channel_id.map ClientEvent.TypingStart
  else none

/-- A bus topic: `user:<uuid>` or `channel:<uuid>`
(`format!("user:{user_id}")` / `format!("channel:{ch_id}")` in
`crates/gateway/src/main.rs`). -/
inductive Topic where
  | user (id : Nat)
  | channel (id : Nat)
deriving DecidableEq, Repr

/-- An item delivered by the socket stream to `handle_socket`: a text
frame, a close frame (or end of stream, handled identically on line 97 /
line 224 of `crates/gateway/src/main.rs`), or anything else (binary
frames, transport errors — the `_ => {}` arms). -/
inductive WsMessage where
  | text (f : Frame)
  | close
  | other
deriving DecidableEq, Repr

/-! ## Gateway handshake loop (`crates/gateway/src/main.rs`, lines 75–100) -/

/-- Outcome of one iteration of the unauthenticated loop of
`handle_socket`: keep waiting (with the frames written to the socket in
this iteration), break out authenticated as `user_id`, or return with the
socket closed (with the frames written before closing). -/
inductive HandshakeStep where
  | stay (out : List ServerEvent)
  | authed (user_id : Nat)
  | closed (out : List ServerEvent)
deriving DecidableEq, Repr

/-- One iteration of the `Unauthenticated` loop (lines 75–100):
`Authenticate` validates the token — success breaks out with `claims.sub`,
failure closes the sink and returns without sending anything; `Ping` is
answered with `Pong` of the same `ts`; `TypingStart` falls to `_ => {}`;
frames that fail to deserialise are ignored; `Close`/end-of-stream
returns; any other stream item is ignored. -/
def unauthStep (secret : String) (now : Int) (m : WsMessage) : HandshakeStep :=
  match m with
  | WsMessage.close => HandshakeStep.closed []
  | WsMessage.other => HandshakeStep.stay []
  | WsMessage.text f =>
    match parseClientEvent f with
    | some (ClientEvent.Authenticate token) =>
      match validate_token token secret now with
      | Except.ok claims => HandshakeStep.authed claims.sub
      | Except.error _ => HandshakeStep.closed []
    | some (ClientEvent.Ping ts) => HandshakeStep.stay [ServerEvent.Pong ts]
    | some (ClientEvent.TypingStart _) => HandshakeStep.stay []
    | none => HandshakeStep.stay []

/-! ## Post-authentication sequence (`crates/gateway/src/main.rs`,
lines 104–169): build and send the Ready event, then subscribe the
connection's bus subscriber to the initial topic set. -/

/-- `ServerRow` (`crates/db/src/servers.rs`), the row shape returned by
`fetch_user_servers`. -/
structure ServerRow where
  id : Nat
  name : String
  owner_id : Nat
  icon_url : Option String
  banner_url : Option String
  description : Option String
  created_at : Int
deriving DecidableEq, Repr

/-- The per-row conversion inside the `Ready` construction
(lines 123–134): each fetched `ServerRow` becomes a `Server`. -/
def serverOfRow (s : ServerRow) : Server :=
  { id := s.id
    name := s.name
    owner_id := s.owner_id
    icon_url := s.icon_url
    banner_url := s.banner_url
    description := s.description
    created_at := s.created_at }

/-- The `Ready` event built on lines 114–137: a placeholder
`PartialUser` for `user_id`, the mapped server rows, and empty
`channels`/`members` lists (loaded per-server by the client). -/
def readyEvent (user_id : Nat) (servers : List ServerRow) : ServerEvent :=
  ServerEvent.Ready
    { id := user_id
      username := ""
      discriminator := ""
      display_name := none
      avatar_url := none
      status := UserStatus.Online }
    (servers.map serverOfRow)
    []
    []

/-- The frames written to the socket between authentication success and
the main loop (lines 139–142): exactly the one `Ready` event. -/
def postAuthFrames (user_id : Nat) (servers : List ServerRow) : List ServerEvent :=
  [readyEvent user_id servers]

/-- The topics subscribed on entry to `Authenticated` (lines 158–164):
`user:<user_id>` followed by `channel:<id>` for every accessible channel
id returned by `user_channel_ids`. -/
def initialTopics (user_id : Nat) (channel_ids : List Nat) : List Topic :=
  Topic.user user_id :: channel_ids.map Topic.channel

/-- Whether a server event is a `Ready` event. -/
def isReady : ServerEvent → Bool
  | ServerEvent.Ready _ _ _ _ => true
  | _ => false

/-! ## Authenticated main loop, inbound branch
(`crates/gateway/src/main.rs`, lines 193–227). -/

/-- Effects of one inbound-branch iteration of the authenticated loop:
the connection's topic subscription set afterwards, the frames written to
the socket, and the (topic, event) pairs published to the bus. -/
structure AuthStepOut where
  subs : List Topic
  sent : List ServerEvent
  published : List (Topic × ServerEvent)
deriving DecidableEq, Repr

/-- One inbound-branch iteration of the authenticated loop for the
connection of `user_id` currently subscribed to `subs`.  `Ping` is
answered with `Pong`; `TypingStart` republishes a server `TypingStart` to
the channel's topic; everything else — frames that fail to deserialise
(which, with the `ClientEvent` of `crates/models/src/event.rs`, includes
any frame tagged `Subscribe`, since that enum has no such variant) and the
`Authenticate` variant caught by `_ => {}` — is ignored.  The Boolean is
false when the loop breaks (close frame or end of stream). -/
def authStep (user_id : Nat) (subs : List Topic) (m : WsMessage) :
    AuthStepOut × Bool :=
  match m with
  | WsMessage.close => (⟨subs, [], []⟩, false)
  | WsMessage.other => (⟨subs, [], []⟩, true)
  | WsMessage.text f =>
    match parseClientEvent f with
    | some (ClientEvent.Ping ts) => (⟨subs, [ServerEvent.Pong ts], []⟩, true)
    | some (ClientEvent.TypingStart channel_id) =>
      (⟨subs, [],
        [(Topic.channel channel_id,
          ServerEvent.TypingStart channel_id user_id)]⟩, true)
    | _ => (⟨subs, [], []⟩, true)

/-! ## Relay channel (`crates/gateway/src/main.rs`, lines 171–182)

The bridge between the Redis subscriber and the socket writer is
`tokio::sync::broadcast::channel::<String>(256)`.  A broadcast channel is
a ring buffer of the last `capacity` values: `send` is synchronous and
never suspends; when the buffer already holds `capacity` values the
oldest is overwritten, and a receiver that had not yet seen it observes
`RecvError::Lagged` and resumes from the oldest retained value.  With the
single receiver `rx`, the channel state is the queue of payloads sent but
not yet received, oldest first. -/

/-- Capacity of the relay channel (`broadcast::channel::<String>(256)`). -/
def relayCap : Nat := 256

/-- `tx.send payload` on the bridging task (line 179): append the payload;
if the receiver already lags `cap` behind, the oldest pending payload is
discarded to make room.  The call always returns immediately. -/
def relaySend (cap : Nat) (pending : List String) (payload : String) :
    List String :=
  if pending.length < cap then pending ++ [payload]
  else pending.drop 1 ++ [payload]

/-- `rx.recv()` on the main loop (line 188): take the oldest pending
payload, if any. -/
def relayRecv (pending : List String) : Option (String × List String) :=
  match pending with
  | [] => none
  | p :: rest => some (p, rest)

/-! ## Credential service (`crates/auth/src/password.rs`)

`hash_password` draws a fresh random salt (`SaltString::generate(OsRng)`)
and returns the PHC string of the Argon2id digest, which embeds the salt;
`verify_password` re-derives the digest from the embedded salt and
compares.  The Argon2id digest itself is an external primitive, so the
model takes the digest function `H : password → salt → digest` as a
parameter and carries the salt explicitly; a PHC string is the
(salt, digest) pair it encodes. -/

/-- The PHC hash string produced by `hash_password`, as the salt and
digest it encodes. -/
structure PasswordHashString where
  salt : String
  digest : String
deriving DecidableEq, Repr

/-- `hash_password` (`crates/auth/src/password.rs`, lines 9–16) with the
freshly generated `salt` made explicit: the PHC string embedding `salt`
and the Argon2id digest of the password under that salt. -/
def hash_password (H : String → String → String) (password salt : String) :
    PasswordHashString :=
  { salt := salt, digest := H password salt }

/-- `verify_password` (`crates/auth/src/password.rs`, lines 19–24):
re-derive the digest with the embedded salt and compare; any mismatch is
`InvalidCredentials`. -/
def verify_password (H : String → String → String) (password : String)
    (hash : PasswordHashString) : Except AuthError Unit :=
  if H password hash.salt = hash.digest then Except.ok ()
  else Except.error AuthError.InvalidCredentials

/-! ## REST authentication extractor (`crates/server/src/extract.rs`)

Header values are modelled as `List Char`; the token string inside the
header is decoded into the structural `Token` by a parameter
`decodeTok` (the JWT base64 decoding, external to this crate). -/

/-- The characters of the literal `"Bearer "`. -/
def bearerChars : List Char := ['B', 'e', 'a', 'r', 'e', 'r', ' ']

/-- `header.strip_prefix("Bearer ").unwrap_or(header)`
(`crates/server/src/extract.rs`, line 27). -/
def stripBearer (header : List Char) : List Char :=
  if header.take 7 = bearerChars then header.drop 7 else header

/-- `AuthUser::from_request_parts` (`crates/server/src/extract.rs`,
lines 17–34): a missing (or non-string) `authorization` header is
rejected with status 401; otherwise the header value, with a `"Bearer "`
prefix stripped when present, is validated by `validate_token`, a failure
again mapping to 401 and a success yielding `claims.sub` as the acting
user. -/
def from_request_parts (decodeTok : List Char → Token) (secret : String)
    (now : Int) (header : Option (List Char)) : Except Nat Nat :=
  match header with
  | none => Except.error 401
  | some h =>
    match validate_token (decodeTok (stripBearer h)) secret now with
    | Except.ok claims => Except.ok claims.sub
    | Except.error _ => Except.error 401

/-! ## Claim theorems -/

/-- C1: for every `user_id`, `session_id` and `secret`, validating a token
issued by `create_token user_id session_id secret` with the same secret
succeeds and returns claims whose `sub` equals `user_id`, whose `sid`
equals `session_id`, and whose `exp - iat` is exactly 30 days. -/
theorem c1_issue_validate_roundtrip (user_id session_id : Nat)
    (secret : String) (now : Int) :
    ∃ c : Claims,
      validate_token (create_token user_id session_id secret now) secret now =
          Except.ok c
        ∧ c.sub = user_id ∧ c.sid = session_id ∧ c.exp - c.iat = 30 * 86400 := by
  refine ⟨⟨user_id, session_id, now + tokenLifetime, now⟩, ?_, rfl, rfl, ?_⟩
  · have h : ¬ (now + tokenLifetime < now - jwtLeeway) := by
      unfold tokenLifetime jwtLeeway
      omega
    simp [validate_token, create_token, h]
  · show (now + tokenLifetime) - now = 30 * 86400
    unfold tokenLifetime
    omega

/-- C4 fails as stated: `validate_token` inherits the 60-second default
leeway of `jsonwebtoken::Validation::default()`, so a well-signed token
whose `exp` (999) is strictly before the validation time (1000) still
validates successfully instead of failing with `TokenExpired`. -/
theorem c4_counterexample_leeway :
    (999 : Int) < 1000
      ∧ validate_token (Token.signed ⟨1, 2, 999, 0⟩ "s") "s" 1000 =
          Except.ok ⟨1, 2, 999, 0⟩ := by
  exact ⟨by decide, by decide⟩

/-- C4 (amended): `validate_token` applies the 60-second default leeway of
`Validation::default()`: a well-signed token fails with `TokenExpired`
exactly when its `exp` is more than 60 seconds in the past. -/
theorem c4_amended_expiry_iff (claims : Claims) (secret : String) (now : Int) :
    validate_token (Token.signed claims secret) secret now =
        Except.error AuthError.TokenExpired
      ↔ claims.exp < now - 60 := by
  have hl : jwtLeeway = 60 := rfl
  by_cases h : claims.exp < now - 60
  · simp [validate_token, hl, h]
  · simp [validate_token, hl, h]

/-- C5 fails as stated: because of the 60-second default leeway, a
well-signed token validated 30 seconds after its `exp` (500, at time 530)
returns the claims successfully — neither `TokenExpired` (as the claim
requires for every post-`exp` validation) nor `InvalidToken`. -/
theorem c5_counterexample_leeway :
    (500 : Int) < 530
      ∧ validate_token (Token.signed ⟨3, 4, 500, 0⟩ "k") "k" 530 =
          Except.ok ⟨3, 4, 500, 0⟩ := by
  exact ⟨by decide, by decide⟩

/-- C5 (amended): validating a token issued under `sec` with any other
secret fails with `InvalidToken` (signature checked before expiry), a
malformed token fails with `InvalidToken`, and a well-signed token
validated more than the 60-second leeway after its `exp` fails with
`TokenExpired`, never `InvalidToken`. -/
theorem c5_amended_error_taxonomy :
    (∀ (u s : Nat) (sec sec2 : String) (now now2 : Int), sec2 ≠ sec →
        validate_token (create_token u s sec now) sec2 now2 =
          Except.error AuthError.InvalidToken)
    ∧ (∀ (raw sec : String) (now : Int),
        validate_token (Token.malformed raw) sec now =
          Except.error AuthError.InvalidToken)
    ∧ (∀ (claims : Claims) (sec : String) (now : Int),
        claims.exp + jwtLeeway < now →
        validate_token (Token.signed claims sec) sec now =
          Except.error AuthError.TokenExpired) := by
  refine ⟨?_, ?_, ?_⟩
  · intro u s sec sec2 now now2 hne
    have h : ¬ (sec = sec2) := fun h => hne h.symm
    simp [validate_token, create_token, h]
  · intro raw sec now
    simp [validate_token]
  · intro claims sec now hexp
    have h : claims.exp < now - jwtLeeway := by omega
    simp [validate_token, h]

/-- Witness for `c5_amended_error_taxonomy` at concrete inputs: a token
issued under `"a"` rejected under `"b"`, a malformed token, and a token
expired 100 seconds before validation. -/
theorem c5_amended_witness :
    validate_token (create_token 1 2 "a" 0) "b" 0 =
        Except.error AuthError.InvalidToken
      ∧ validate_token (Token.malformed "zzz") "a" 0 =
          Except.error AuthError.InvalidToken
      ∧ validate_token (Token.signed ⟨1, 2, 100, 0⟩ "a") "a" 200 =
          Except.error AuthError.TokenExpired :=
  ⟨c5_amended_error_taxonomy.1 1 2 "a" "b" 0 0 (by decide),
   c5_amended_error_taxonomy.2.1 "zzz" "a" 0,
   c5_amended_error_taxonomy.2.2 ⟨1, 2, 100, 0⟩ "a" 200 (by decide)⟩

/-- C6: in the unauthenticated loop, an `Authenticate` frame whose token
fails validation (for any error — expired, bad signature, malformed)
makes the gateway close the socket immediately with no reply frame of any
kind: the step result is `closed []`. -/
theorem c6_auth_failure_closes_silently (secret : String) (now : Int)
    (f : Frame) (tok : Token) (e : AuthError)
    (hparse : parseClientEvent f = some (ClientEvent.Authenticate tok))
    (hval : validate_token tok secret now = Except.error e) :
    unauthStep secret now (WsMessage.text f) = HandshakeStep.closed [] := by
  simp [unauthStep, hparse, hval]

/-- Witness for `c6_auth_failure_closes_silently`: the spec scenario — an
`Authenticate` frame carrying an expired token (exp 100 seconds before
`now`, past the leeway) yields a closed socket and no output. -/
theorem c6_auth_failure_witness :
    unauthStep "s" 200
        (WsMessage.text
          ⟨"Authenticate", some (Token.signed ⟨1, 2, 100, 0⟩ "s"), none, none⟩) =
      HandshakeStep.closed [] :=
  c6_auth_failure_closes_silently "s" 200
    ⟨"Authenticate", some (Token.signed ⟨1, 2, 100, 0⟩ "s"), none, none⟩
    (Token.signed ⟨1, 2, 100, 0⟩ "s") AuthError.TokenExpired
    (by decide) (by decide)

/-- C8: before authentication, a `Ping {ts}` frame is answered with
`Pong {ts}` and the connection stays unauthenticated, and every text
frame that does not deserialise to `Authenticate` or `Ping` — unknown
discriminators, malformed frames, `TypingStart` — is ignored: the
connection stays unauthenticated with no output (as is any non-text
stream item short of a close). -/
theorem c8_unauth_ping_and_ignore (secret : String) (now : Int) :
    (∀ (ts : Nat) (tokOpt : Option Token) (chOpt : Option Nat),
        unauthStep secret now (WsMessage.text ⟨"Ping", tokOpt, some ts, chOpt⟩) =
          HandshakeStep.stay [ServerEvent.Pong ts])
    ∧ (∀ f : Frame,
        (∀ t, parseClientEvent f ≠ some (ClientEvent.Authenticate t)) →
        (∀ ts, parseClientEvent f ≠ some (ClientEvent.Ping ts)) →
        unauthStep secret now (WsMessage.text f) = HandshakeStep.stay [])
    ∧ unauthStep secret now WsMessage.other = HandshakeStep.stay [] := by
  refine ⟨?_, ?_, rfl⟩
  · intro ts tokOpt chOpt
    simp [unauthStep, parseClientEvent]
  · intro f hauth hping
    match hp : parseClientEvent f with
    | none => simp [unauthStep, hp]
    | some (ClientEvent.Authenticate t) => exact absurd hp (hauth t)
    | some (ClientEvent.Ping ts) => exact absurd hp (hping ts)
    | some (ClientEvent.TypingStart ch) => simp [unauthStep, hp]

/-- Witness for `c8_unauth_ping_and_ignore`: the spec scenario
`Ping {ts = 42}` answered by `Pong {ts = 42}`, and an unknown-tagged
frame ignored. -/
theorem c8_unauth_witness :
    unauthStep "s" 0 (WsMessage.text ⟨"Ping", none, some 42, none⟩) =
        HandshakeStep.stay [ServerEvent.Pong 42]
      ∧ unauthStep "s" 0 (WsMessage.text ⟨"Bogus", none, none, none⟩) =
          HandshakeStep.stay [] :=
  ⟨(c8_unauth_ping_and_ignore "s" 0).1 42 none none,
   (c8_unauth_ping_and_ignore "s" 0).2.1 ⟨"Bogus", none, none, none⟩
     (by intro t h; simp [parseClientEvent] at h)
     (by intro ts h; simp [parseClientEvent] at h)⟩

/-- C2 fails on the code as committed: `ClientEvent`
(`crates/models/src/event.rs`) declares no `Subscribe` variant, so a frame
tagged `"Subscribe"` does not deserialise (`parseClientEvent` returns
`none`) and the authenticated loop ignores it — the subscription set of an
authenticated connection never grows, on this or any other inbound item —
even though `crates/gateway/src/main.rs` line 216 contains a
`ClientEvent::Subscribe` arm intended to add `channel:<c>` (an arm that
cannot even compile against that enum).  Evaluated at the failing input:
an authenticated connection subscribed to `user:5` receiving
`{"type":"Subscribe","channel_id":9}`. -/
theorem c2_subscribe_frame_ignored :
    parseClientEvent ⟨"Subscribe", none, none, some 9⟩ = none
      ∧ authStep 5 [Topic.user 5]
          (WsMessage.text ⟨"Subscribe", none, none, some 9⟩) =
          (⟨[Topic.user 5], [], []⟩, true)
      ∧ unauthStep "s" 0 (WsMessage.text ⟨"Subscribe", none, none, some 9⟩) =
          HandshakeStep.stay []
      ∧ ∀ (uid : Nat) (subs : List Topic) (m : WsMessage),
          (authStep uid subs m).1.subs = subs := by
  refine ⟨by decide, by decide, by decide, ?_⟩
  intro uid subs m
  match m with
  | WsMessage.close => rfl
  | WsMessage.other => rfl
  | WsMessage.text f =>
    simp only [authStep]
    match parseClientEvent f with
    | none => rfl
    | some (ClientEvent.Authenticate t) => rfl
    | some (ClientEvent.Ping ts) => rfl
    | some (ClientEvent.TypingStart ch) => rfl

/-- C7: on successful authentication the gateway writes exactly one frame
before entering the main loop — a `Ready` event whose `servers` list is
the user's fetched server rows (converted field for field) and whose
`channels` and `members` lists are empty — and subscribes the
connection's bus subscriber to `user:<user_id>` plus `channel:<id>` for
every accessible channel id; the authenticated loop itself never sends
another `Ready`. -/
theorem c7_ready_and_initial_topics (user_id : Nat)
    (servers : List ServerRow) (channel_ids : List Nat) :
    (postAuthFrames user_id servers).countP (fun e => isReady e) = 1
      ∧ postAuthFrames user_id servers =
          [ServerEvent.Ready
            ⟨user_id, "", "", none, none, UserStatus.Online⟩
            (servers.map serverOfRow) [] []]
      ∧ initialTopics user_id channel_ids =
          Topic.user user_id :: channel_ids.map Topic.channel
      ∧ ∀ (subs : List Topic) (m : WsMessage),
          ((authStep user_id subs m).1.sent).countP (fun e => isReady e) = 0 := by
  refine ⟨rfl, rfl, rfl, ?_⟩
  intro subs m
  match m with
  | WsMessage.close => rfl
  | WsMessage.other => rfl
  | WsMessage.text f =>
    simp only [authStep]
    match parseClientEvent f with
    | none => rfl
    | some (ClientEvent.Authenticate t) => rfl
    | some (ClientEvent.Ping ts) => rfl
    | some (ClientEvent.TypingStart ch) => rfl

/-- C3 fails as stated: the relay is a `tokio::sync::broadcast` channel,
whose send never blocks — when the receiver already lags `relayCap = 256`
payloads behind, sending the next payload discards the oldest pending one,
which therefore never reaches the socket-writing loop.  Concretely: with
`"m0"` followed by 255 other payloads pending, accepting `"m1"` drops
`"m0"`. -/
theorem c3_counterexample_drop :
    ("m0" :: List.replicate 255 "x").length = relayCap
      ∧ "m0" ∈ ("m0" :: List.replicate 255 "x")
      ∧ "m0" ∉ relaySend relayCap ("m0" :: List.replicate 255 "x") "m1" := by
  have hlen : ("m0" :: List.replicate 255 "x").length = relayCap := by
    rw [List.length_cons, List.length_replicate]
    rfl
  refine ⟨hlen, List.mem_cons_self _ _, ?_⟩
  have h : relaySend relayCap ("m0" :: List.replicate 255 "x") "m1" =
      List.replicate 255 "x" ++ ["m1"] := by
    unfold relaySend
    rw [hlen, if_neg (lt_irrefl relayCap)]
    rfl
  rw [h]
  intro hmem
  rcases List.mem_append.1 hmem with hm | hm
  · exact absurd (List.eq_of_mem_replicate hm) (by decide)
  · rw [List.mem_singleton] at hm
    exact absurd hm (by decide)

/-- C3 (amended): the bridging task's send into the capacity-256 relay
channel never blocks: below capacity the payload is appended to the
pending queue; at capacity the oldest pending payload is discarded and the
new one appended (the pending queue stays at capacity), so a slow consumer
loses its own oldest events rather than exerting backpressure on the bus
client. -/
theorem c3_amended_lossy_relay (pending : List String) (payload : String) :
    (pending.length < relayCap →
        relaySend relayCap pending payload = pending ++ [payload])
      ∧ (pending.length = relayCap →
          relaySend relayCap pending payload = pending.drop 1 ++ [payload]
            ∧ (relaySend relayCap pending payload).length = relayCap
            ∧ payload ∈ relaySend relayCap pending payload) := by
  constructor
  · intro h
    unfold relaySend
    rw [if_pos h]
  · intro h
    have hn : ¬ pending.length < relayCap := by
      rw [h]
      exact lt_irrefl _
    refine ⟨?_, ?_, ?_⟩
    · unfold relaySend
      rw [if_neg hn]
    · unfold relaySend
      rw [if_neg hn, List.length_append, List.length_drop, h]
      rfl
    · unfold relaySend
      rw [if_neg hn]
      exact List.mem_append_right _ (List.mem_singleton_self _)

/-- Witness for `c3_amended_lossy_relay`: a full queue of 256 payloads
(oldest dropped, length preserved, new payload present) and a queue of one
payload (appended). -/
theorem c3_amended_witness :
    relaySend relayCap (List.replicate 256 "x") "m1" =
        (List.replicate 256 "x").drop 1 ++ ["m1"]
      ∧ (relaySend relayCap (List.replicate 256 "x") "m1").length = relayCap
      ∧ "m1" ∈ relaySend relayCap (List.replicate 256 "x") "m1"
      ∧ relaySend relayCap ["a"] "b" = ["a"] ++ ["b"] :=
  let h := (c3_amended_lossy_relay (List.replicate 256 "x") "m1").2
    (by rw [List.length_replicate]; rfl)
  ⟨h.1, h.2.1, h.2.2,
   (c3_amended_lossy_relay ["a"] "b").1 (by decide)⟩

/-- C9: with the Argon2id digest `H` (injective in the password for each
fixed salt, the collision-freeness the scheme assumes), verifying a
password against its own hash succeeds; hashing the same password under
the two distinct salts of two calls yields distinct hash strings; and
verifying any other password against the hash fails with
`InvalidCredentials`. -/
theorem c9_password_roundtrip (H : String → String → String)
    (hinj : ∀ salt p p2, H p salt = H p2 salt → p = p2)
    (p p2 salt salt2 : String) :
    verify_password H p (hash_password H p salt) = Except.ok ()
      ∧ (salt ≠ salt2 → hash_password H p salt ≠ hash_password H p salt2)
      ∧ (p2 ≠ p →
          verify_password H p2 (hash_password H p salt) =
            Except.error AuthError.InvalidCredentials) := by
  refine ⟨?_, ?_, ?_⟩
  · simp [verify_password, hash_password]
  · intro hs hcontr
    exact hs (congrArg PasswordHashString.salt hcontr)
  · intro hp
    have h : ¬ (H p2 salt = H p salt) := fun h => hp (hinj salt p2 p h)
    simp [verify_password, hash_password, h]

/-- Witness for `c9_password_roundtrip` with the injective digest
`fun pw _ => pw` at passwords `"a"`, `"b"` and salts `"s1"`, `"s2"`. -/
theorem c9_password_witness :
    verify_password (fun pw _ => pw) "a"
        (hash_password (fun pw _ => pw) "a" "s1") = Except.ok ()
      ∧ hash_password (fun pw _ => pw) "a" "s1" ≠
          hash_password (fun pw _ => pw) "a" "s2"
      ∧ verify_password (fun pw _ => pw) "b"
          (hash_password (fun pw _ => pw) "a" "s1") =
          Except.error AuthError.InvalidCredentials :=
  let c := c9_password_roundtrip (fun pw _ => pw) (fun _ _ _ h => h)
    "a" "b" "s1" "s2"
  ⟨c.1, c.2.1 (by decide), c.2.2 (by decide)⟩

/-- C10: the REST extractor accepts a raw token in the `authorization`
header — for a token string not itself starting with `"Bearer "`, the
bare header and the `"Bearer "`-prefixed header are authorised
identically — and it rejects with 401 exactly when the header is absent
or the (possibly prefix-stripped) value fails `validate_token`, otherwise
yielding the claims' `sub` as the acting user. -/
theorem c10_bearer_optional (decodeTok : List Char → Token) (secret : String)
    (now : Int) (t : List Char) (hnb : t.take 7 ≠ bearerChars) :
    from_request_parts decodeTok secret now (some (bearerChars ++ t)) =
        from_request_parts decodeTok secret now (some t)
      ∧ from_request_parts decodeTok secret now none = Except.error 401
      ∧ (∀ (h : List Char) (c : Claims),
          validate_token (decodeTok (stripBearer h)) secret now =
            Except.ok c →
          from_request_parts decodeTok secret now (some h) = Except.ok c.sub)
      ∧ (∀ (h : List Char) (e : AuthError),
          validate_token (decodeTok (stripBearer h)) secret now =
            Except.error e →
          from_request_parts decodeTok secret now (some h) =
            Except.error 401) := by
  have h7 : bearerChars.length = 7 := rfl
  have hstrip : stripBearer (bearerChars ++ t) = t := by
    unfold stripBearer
    rw [List.take_left' h7, if_pos rfl, List.drop_left' h7]
  have hstript : stripBearer t = t := by
    unfold stripBearer
    rw [if_neg hnb]
  refine ⟨?_, rfl, ?_, ?_⟩
  · simp [from_request_parts, hstrip, hstript]
  · intro h c hval
    simp [from_request_parts, hval]
  · intro h e hval
    simp [from_request_parts, hval]

/-- Witness for `c10_bearer_optional`: a decoder returning a fixed
well-signed token, the raw header `tok` versus `Bearer tok`, and the 401
on a missing header. -/
theorem c10_bearer_witness :
    from_request_parts (fun _ => Token.signed ⟨7, 8, 100, 0⟩ "s") "s" 0
        (some (bearerChars ++ ['t', 'o', 'k'])) =
        from_request_parts (fun _ => Token.signed ⟨7, 8, 100, 0⟩ "s") "s" 0
          (some ['t', 'o', 'k'])
      ∧ from_request_parts (fun _ => Token.signed ⟨7, 8, 100, 0⟩ "s") "s" 0
          none = Except.error 401
      ∧ from_request_parts (fun _ => Token.signed ⟨7, 8, 100, 0⟩ "s") "s" 0
          (some ['t', 'o', 'k']) = Except.ok 7 :=
  let c := c10_bearer_optional (fun _ => Token.signed ⟨7, 8, 100, 0⟩ "s")
    "s" 0 ['t', 'o', 'k'] (by decide)
  ⟨c.1, c.2.1, c.2.2.1 ['t', 'o', 'k'] ⟨7, 8, 100, 0⟩ (by decide)⟩

end Rusteze
